import Mathlib

/-!
Verification development for the folder / data-extension synchronization
orchestrator.  The definitions below are a shallow embedding of the Go
sources:

  * SyncMetrics, SyncAll, SyncFolders, SyncFolder, SyncDataExtensions
    (dataretention/services/sync.go),
  * SaveFoldersInOrder (pkg/dataretention/services/folder.go),
  * DataExtensionService.GetDataExtensions and UpdateDataRetentionViaAPI
    (dataretention/cmd/export_top_dataextensions.go),
  * the SQL query UpdateDataRetentionAPIUpdateStatus and the reconciliation
    query GetDataExtensionsNeedingRetentionUpdate
    (pkg/dataretention/schema/postgres/queries/data_retention_properties.sql).

External collaborators (remote fetches, the upsert stores, the remote
configuration-update call and sync-job creation) are modelled as an
environment of oracles; each oracle result is keyed by the entity
identifier, matching the collaborator contract of the spec.  Concurrency
in the source is bounded worker pools with a barrier wait whose submitted
units all run to completion; the counters and records the claims are about
are order-insensitive, so the embedding runs the submitted units in
submission order.
-/

/-- A folder entry as fetched from the remote API.  Only the fields the
synchronization logic inspects are kept: identifier, parent identifier
(with the sentinel values, an empty string or a zero string, meaning
no parent) and the display name used in log output. -/
structure Folder where
  id : String
  parentID : String
  name : String
deriving DecidableEq, Repr

/-- A data extension (leaf record); the sync logic only inspects its
identifier and name. -/
structure DataExtension where
  id : String
  name : String
deriving DecidableEq, Repr

/-- Outcome of one SaveFolder persistence attempt, as classified by the
folder store: success, a referential-integrity (foreign-key) violation,
or any other error. -/
inductive FolderSaveRes where
  | ok : FolderSaveRes
  | fkViolation : String → FolderSaveRes
  | otherErr : String → FolderSaveRes
deriving DecidableEq, Repr

/-- The environment of external collaborators used by the orchestrator.
Each oracle is keyed by the entity identifier it is called with. -/
structure Env where
  getFolders : Except String (List Folder)
  getSubFolders : String → Except String (List Folder)
  getDataExtensions : String → Except String (List DataExtension)
  saveFolder : String → FolderSaveRes
  saveDataExtension : String → Option String
  updateRetention : String → Option String
  createSyncJob : String → Bool

/-- The six counters of SyncMetrics (sync.go).  The Go struct guards them
with a mutex; the counters themselves are plain integers. -/
structure SyncMetrics where
  foldersSucceeded : Nat := 0
  foldersFailed : Nat := 0
  subfoldersSucceeded : Nat := 0
  subfoldersFailed : Nat := 0
  dataExtensionsSucceeded : Nat := 0
  dataExtensionsFailed : Nat := 0
deriving DecidableEq, Repr

def SyncMetrics.addFolderSuccess (m : SyncMetrics) : SyncMetrics :=
  { m with foldersSucceeded := m.foldersSucceeded + 1 }

def SyncMetrics.addFolderFailure (m : SyncMetrics) : SyncMetrics :=
  { m with foldersFailed := m.foldersFailed + 1 }

def SyncMetrics.addSubfolderSuccess (m : SyncMetrics) : SyncMetrics :=
  { m with subfoldersSucceeded := m.subfoldersSucceeded + 1 }

def SyncMetrics.addSubfolderFailure (m : SyncMetrics) : SyncMetrics :=
  { m with subfoldersFailed := m.subfoldersFailed + 1 }

def SyncMetrics.addDataExtensions (m : SyncMetrics) (succeeded failed : Nat) : SyncMetrics :=
  { m with dataExtensionsSucceeded := m.dataExtensionsSucceeded + succeeded,
           dataExtensionsFailed := m.dataExtensionsFailed + failed }

/-- TotalSucceeded of sync.go: sum of the three success counters. -/
def SyncMetrics.totalSucceeded (m : SyncMetrics) : Nat :=
  m.foldersSucceeded + m.subfoldersSucceeded + m.dataExtensionsSucceeded

/-- TotalFailed of sync.go: sum of the three failure counters. -/
def SyncMetrics.totalFailed (m : SyncMetrics) : Nat :=
  m.foldersFailed + m.subfoldersFailed + m.dataExtensionsFailed

/-- One observable action of a run.  Every SaveFolder / SaveDataExtension /
UpdateDataRetentionViaAPI call site of the orchestrator emits exactly one
event, tagged with the call site it came from. -/
inductive Event where
  | saveTopLevel : String → Bool → Event
  | saveInOrder : String → FolderSaveRes → Event
  | saveFolderProc : String → Bool → Event
  | saveSubfolder : String → Bool → Event
  | saveDataExt : String → Bool → Event
  | retentionUpdate : String → Bool → Event
deriving DecidableEq, Repr

/-- Persistence attempts: every save event, from any stage.  The remote
configuration update is not a persistence attempt. -/
def Event.isPersistAttempt : Event → Bool
  | Event.retentionUpdate _ _ => false
  | _ => true

/-- Persistence attempts made by a metric-instrumented call site, that is
all save call sites except the ones inside SaveFoldersInOrder. -/
def Event.isCountedAttempt : Event → Bool
  | Event.saveInOrder _ _ => false
  | Event.retentionUpdate _ _ => false
  | _ => true

/-- Persistence attempts made by the hierarchy resolver SaveFoldersInOrder. -/
def Event.isResolverAttempt : Event → Bool
  | Event.saveInOrder _ _ => true
  | _ => false

/-- Remote configuration-update calls. -/
def Event.isRetentionCall : Event → Bool
  | Event.retentionUpdate _ _ => true
  | _ => false

/-- One row written by UpdateSyncJobProgress (processed, succeeded and
failed item counts of a sync job). -/
structure JobProgress where
  processed : Nat
  succeeded : Nat
  failed : Nat
deriving DecidableEq, Repr

/-- One row written by CompleteSyncJob: terminal status plus whether the
duration and average-processing-time columns were supplied. -/
structure JobCompletion where
  status : String
  durationSet : Bool
  avgSet : Bool
deriving DecidableEq, Repr

/-- The accumulated observable state of one orchestrator run: the metrics
counters, the ordered event trace, and the durable sync-job records. -/
structure RunState where
  metrics : SyncMetrics
  events : List Event
  jobCreates : List (String × Nat)
  jobProgress : List JobProgress
  jobCompletions : List JobCompletion
deriving DecidableEq, Repr

def RunState.empty : RunState :=
  { metrics := {}, events := [], jobCreates := [], jobProgress := [], jobCompletions := [] }

def RunState.addEvent (run : RunState) (e : Event) : RunState :=
  { run with events := run.events ++ [e] }

def RunState.withMetrics (run : RunState) (f : SyncMetrics → SyncMetrics) : RunState :=
  { run with metrics := f run.metrics }

/-- The two derived run totals. -/
def RunState.totalMetrics (run : RunState) : Nat :=
  run.metrics.totalSucceeded + run.metrics.totalFailed

/-- How many metric-instrumented persistence attempts appear in the trace. -/
def RunState.countedAttempts (run : RunState) : Nat :=
  run.events.countP Event.isCountedAttempt

/-- How many persistence attempts of any stage appear in the trace. -/
def RunState.persistAttempts (run : RunState) : Nat :=
  run.events.countP Event.isPersistAttempt

/-! ## Hierarchy resolver: SaveFoldersInOrder (folder.go lines 111 to 190)

The Go function keeps a saved map, runs up to maxRetries = 5 passes over
the folder list, defers a folder whose parent is in the batch map but not
yet saved, attempts SaveFolder otherwise, and distinguishes foreign-key
failures from other failures only in what it logs: in both cases the
folder stays unsaved and allSaved becomes false.  It returns nil both on
the early all-saved exit and after the pass ceiling, where it logs the
still-unsaved folders. -/

/-- State threaded through the resolver: its local saved map (kept as the
list of saved identifiers in save order) and the ambient run state. -/
structure ResolverState where
  saved : List String
  run : RunState
deriving DecidableEq, Repr

/-- The body of the inner loop of SaveFoldersInOrder for one folder.
Returns the updated state and the updated allSaved flag. -/
def resolverStep (env : Env) (folderMap : List Folder) (folder : Folder)
    (st : ResolverState) (allSaved : Bool) : ResolverState × Bool :=
  if st.saved.contains folder.id then (st, allSaved)
  else if (folder.parentID != "" && folder.parentID != "0")
      && folderMap.any (fun g => g.id == folder.parentID)
      && !(st.saved.contains folder.parentID) then
    (st, false)
  else
    match env.saveFolder folder.id with
    | FolderSaveRes.ok =>
      ({ st with saved := st.saved ++ [folder.id],
                 run := st.run.addEvent (Event.saveInOrder folder.id FolderSaveRes.ok) },
       allSaved)
    | r =>
      ({ st with run := st.run.addEvent (Event.saveInOrder folder.id r) }, false)

/-- One full pass of the resolver over the folder list. -/
def resolverPass (env : Env) (folderMap : List Folder) :
    List Folder → ResolverState → Bool → ResolverState × Bool
  | [], st, allSaved => (st, allSaved)
  | f :: rest, st, allSaved =>
    let out := resolverStep env folderMap f st allSaved
    resolverPass env folderMap rest out.1 out.2

/-- The log line SaveFoldersInOrder emits for the still-unsaved folders
after the pass ceiling: identifier plus name, in list order. -/
def unsavedReport (folders : List Folder) (saved : List String) : List String :=
  (folders.filter (fun f => !(saved.contains f.id))).map
    (fun f => f.id ++ "(" ++ f.name ++ ")")

/-- Result of SaveFoldersInOrder: the saved identifiers in save order, the
allSaved flag of each executed pass, the logged unsaved report when the
ceiling was reached without finishing, and the returned error. -/
structure OrderedSaveResult where
  saved : List String
  passTrace : List Bool
  loggedUnsaved : Option (List String)
  errOut : Option String
  run : RunState
deriving DecidableEq, Repr

/-- The retry loop of SaveFoldersInOrder, with the remaining pass budget as
the recursion measure (the Go loop runs attempt = 0 .. maxRetries - 1). -/
def resolverLoop (env : Env) (folders folderMap : List Folder) :
    Nat → ResolverState → List Bool → OrderedSaveResult
  | 0, st, trace =>
    { saved := st.saved, passTrace := trace,
      loggedUnsaved := some (unsavedReport folders st.saved),
      errOut := none, run := st.run }
  | Nat.succ n, st, trace =>
    let out := resolverPass env folderMap folders st true
    if out.2 then
      { saved := out.1.saved, passTrace := trace ++ [true],
        loggedUnsaved := none, errOut := none, run := out.1.run }
    else
      resolverLoop env folders folderMap n out.1 (trace ++ [false])

/-- SaveFoldersInOrder (folder.go): maxRetries = 5, local saved map starts
empty. -/
def saveFoldersInOrder (env : Env) (folders folderMap : List Folder)
    (run : RunState) : OrderedSaveResult :=
  resolverLoop env folders folderMap 5 { saved := [], run := run } []

/-! The concrete three-folder chain of the scenario: A has the sentinel
parent, B is a child of A, C is a child of B; the batch is submitted in
the order C, B, A and all three are in the known-folder map. -/

def folderA : Folder := { id := "A", parentID := "0", name := "folder A" }

def folderB : Folder := { id := "B", parentID := "A", name := "folder B" }

def folderC : Folder := { id := "C", parentID := "B", name := "folder C" }

/-- An environment in which every collaborator call succeeds and every
fetch returns nothing. -/
def envAllOk : Env :=
  { getFolders := Except.ok []
    getSubFolders := fun _ => Except.ok []
    getDataExtensions := fun _ => Except.ok []
    saveFolder := fun _ => FolderSaveRes.ok
    saveDataExtension := fun _ => none
    updateRetention := fun _ => none
    createSyncJob := fun _ => true }

/-! ## Leaf-record batch: SyncDataExtensions (sync.go lines 324 to 490)

The Go function fetches the batch, creates a sync job when the batch is
non-empty, then for every record saves it and, only after a successful
save, issues the remote configuration update.  The two result arrays are
preallocated with nil entries; the retention-result slot of a record whose
save failed is never written.  Metrics receive the save outcomes; the job
progress row receives the retention-result counts; the function returns
nil except when the initial fetch failed. -/

/-- Processing of one record inside the worker pool: the save result and
the retention-result slot (which stays nil when the save failed). -/
def processDataExtension (env : Env) (de : DataExtension) (run : RunState) :
    (Option String × Option String) × RunState :=
  match env.saveDataExtension de.id with
  | some e => ((some e, none), run.addEvent (Event.saveDataExt de.id false))
  | none =>
    let run1 := run.addEvent (Event.saveDataExt de.id true)
    match env.updateRetention de.id with
    | some e => ((none, some e), run1.addEvent (Event.retentionUpdate de.id false))
    | none => ((none, none), run1.addEvent (Event.retentionUpdate de.id true))

/-- The whole batch, in submission order, collecting the per-record result
pairs (save result, retention-result slot). -/
def processDataExtensions (env : Env) :
    List DataExtension → RunState → List (Option String × Option String) × RunState
  | [], run => ([], run)
  | de :: rest, run =>
    let out := processDataExtension env de run
    let outs := processDataExtensions env rest out.2
    (out.1 :: outs.1, outs.2)

/-- SyncDataExtensions (sync.go). -/
def syncDataExtensions (env : Env) (folderID : String) (run : RunState) :
    Option String × RunState :=
  match env.getDataExtensions folderID with
  | Except.error e => (some ("failed to fetch data extensions for folder " ++ folderID ++ ": " ++ e), run)
  | Except.ok des =>
    let jobCreated := decide (0 < des.length) && env.createSyncJob folderID
    let run1 := if jobCreated then
        { run with jobCreates := run.jobCreates ++ [(folderID, des.length)] }
      else run
    let outs := processDataExtensions env des run1
    let results := outs.1
    let succeeded := (results.filter (fun r => r.1.isNone)).length
    let failed := (results.filter (fun r => r.1.isSome)).length
    let retentionUpdateSucceeded := (results.filter (fun r => r.2.isNone)).length
    let retentionUpdateFailed := (results.filter (fun r => r.2.isSome)).length
    let run2 := outs.2.withMetrics (fun m => m.addDataExtensions succeeded failed)
    let run3 := if jobCreated then
        { run2 with
          jobProgress := run2.jobProgress ++
            [{ processed := des.length, succeeded := retentionUpdateSucceeded,
               failed := retentionUpdateFailed }],
          jobCompletions := run2.jobCompletions ++
            [{ status := "completed", durationSet := true, avgSet := true }] }
      else run2
    (none, run3)

/-! ## Per-folder walk: SyncFolder (sync.go lines 235 to 318)

SyncFolder saves the folder (failure here is the only error it returns),
fetches its subfolders (a fetch failure is logged and skipped), processes
each subfolder in a bounded pool: save it, then either recurse or sync
only its data extensions, every inner failure being logged and swallowed;
finally it syncs the folder's own data extensions, again swallowing the
error.  The recursion depth is bounded in the embedding by a fuel
parameter; a run of the Go code corresponds to any fuel at least the
height of the fetched folder graph. -/

/-- The body of the subfolder worker pool: save the subfolder, then either
recurse (via the supplied continuation, which is SyncFolder at the
remaining depth budget) or sync only the subfolder's data extensions. -/
def subfolderStep (env : Env) (deeper : Folder → RunState → Option String × RunState)
    (recursive : Bool) (run : RunState) (sub : Folder) : RunState :=
  match env.saveFolder sub.id with
  | FolderSaveRes.ok =>
    let r := (run.addEvent (Event.saveSubfolder sub.id true)).withMetrics
      SyncMetrics.addSubfolderSuccess
    if recursive then (deeper sub r).2
    else (syncDataExtensions env sub.id r).2
  | _ =>
    (run.addEvent (Event.saveSubfolder sub.id false)).withMetrics
      SyncMetrics.addSubfolderFailure

def syncFolder (env : Env) : Nat → Folder → Bool → RunState → Option String × RunState
  | 0, _, _, run => (none, run)
  | Nat.succ fuelRest, folder, recursive, run =>
    match env.saveFolder folder.id with
    | FolderSaveRes.ok =>
      let run1 := (run.addEvent (Event.saveFolderProc folder.id true)).withMetrics
        SyncMetrics.addFolderSuccess
      let run2 :=
        match env.getSubFolders folder.id with
        | Except.error _ => run1
        | Except.ok subs =>
          subs.foldl
            (subfolderStep env (fun sub r => syncFolder env fuelRest sub true r) recursive)
            run1
      let run3 := (syncDataExtensions env folder.id run2).2
      (none, run3)
    | _ =>
      (some ("failed to save folder " ++ folder.id),
       (run.addEvent (Event.saveFolderProc folder.id false)).withMetrics
         SyncMetrics.addFolderFailure)

/-! ## The run: SyncFolders and SyncAll (sync.go lines 117 to 232) -/

/-- The top-level parent-sentinel rule of SyncFolders. -/
def isTopLevel (f : Folder) : Bool :=
  f.parentID == "" || f.parentID == "0"

/-- Stage 1 of SyncFolders: save every top-level folder in the pool; all
submitted units run, the stage reports whether any of them failed. -/
def syncStep1 (env : Env) : List Folder → RunState → Bool × RunState
  | [], run => (false, run)
  | f :: rest, run =>
    match env.saveFolder f.id with
    | FolderSaveRes.ok =>
      syncStep1 env rest
        ((run.addEvent (Event.saveTopLevel f.id true)).withMetrics SyncMetrics.addFolderSuccess)
    | _ =>
      let out := syncStep1 env rest
        ((run.addEvent (Event.saveTopLevel f.id false)).withMetrics SyncMetrics.addFolderFailure)
      (true, out.2)

/-- Stage 3 of SyncFolders: run SyncFolder for every fetched folder in the
pool; all submitted units run, the stage reports whether any returned an
error. -/
def syncStep3 (env : Env) (fuel : Nat) : List Folder → RunState → Bool × RunState
  | [], run => (false, run)
  | f :: rest, run =>
    let r1 := syncFolder env fuel f true run
    let r2 := syncStep3 env fuel rest r1.2
    (r1.1.isSome || r2.1, r2.2)

/-- SyncFolders (sync.go): fetch all folders, partition by the sentinel
rule, save the top-level folders (any failure is fatal to the run), run
the hierarchy resolver over the remaining subfolders (its result is only
logged), then process every fetched folder (any SyncFolder error is fatal
to the run). -/
def syncFolders (env : Env) (fuel : Nat) (run : RunState) : Option String × RunState :=
  match env.getFolders with
  | Except.error e => (some ("failed to fetch folders: " ++ e), run)
  | Except.ok entries =>
    let topLevelFolders := entries.filter isTopLevel
    let subfolders := entries.filter (fun f => !(isTopLevel f))
    let folderMap := entries
    let out1 := syncStep1 env topLevelFolders run
    if out1.1 then (some "error saving top-level folders", out1.2)
    else
      let run2 := if 0 < subfolders.length then
          (saveFoldersInOrder env subfolders folderMap out1.2).run
        else out1.2
      let out3 := syncStep3 env fuel entries run2
      if out3.1 then (some "error processing folders", out3.2)
      else (none, out3.2)

/-- SyncAll (sync.go): initializes a fresh metrics accumulator, runs
SyncFolders, and returns the metrics in every case, with the wrapped
error when SyncFolders failed. -/
def syncAll (env : Env) (fuel : Nat) : SyncMetrics × Option String × RunState :=
  let out := syncFolders env fuel RunState.empty
  match out.1 with
  | some e => (out.2.metrics, some ("failed to sync folders: " ++ e), out.2)
  | none => (out.2.metrics, none, out.2)

/-! ## Concrete runs used to settle the claims that fail on the code -/

/-- A subfolder whose parent is outside the fetched batch (assumed durable
from a prior run), so the resolver attempts it immediately. -/
def folderOrphan : Folder := { id := "B1", parentID := "Z", name := "subfolder B1" }

def envResolverCounts : Env :=
  { envAllOk with getFolders := Except.ok [folderOrphan] }

def dataExt1 : DataExtension := { id := "DE1", name := "data extension 1" }

def envRetentionRejected : Env :=
  { envAllOk with
    getDataExtensions := fun _ => Except.ok [dataExt1]
    updateRetention := fun _ => some "permanent client rejection" }

def envSaveRefused : Env :=
  { envAllOk with
    getDataExtensions := fun _ => Except.ok [dataExt1]
    saveDataExtension := fun _ => some "database write refused" }

def folderX : Folder := { id := "X", parentID := "0", name := "folder X" }

def envPersistentOtherError : Env :=
  { envAllOk with saveFolder := fun _ => FolderSaveRes.otherErr "permission denied" }

def envChildSaveFails : Env :=
  { envAllOk with
    getFolders := Except.ok [folderOrphan]
    saveFolder := fun _ => FolderSaveRes.otherErr "disk failure" }

/-! ## Pagination: DataExtensionService.GetDataExtensions
(export_top_dataextensions.go lines 325 to 373)

The Go loop starts at page 1 with pageSize 96, stops on a fetch error, on
an empty page (without appending it), or after appending a short page, and
otherwise moves to the next page.  The loop has no intrinsic bound, so the
embedding carries a fuel parameter; a run of the Go code corresponds to
any fuel at least the number of pages fetched.  The embedding also records
the list of page numbers requested. -/

def dataExtPageSize : Nat := 96

def getDataExtensionsPaged (fetch : Nat → Except String (List DataExtension)) :
    Nat → Nat → List DataExtension → List Nat →
    Except String (List DataExtension) × List Nat
  | 0, _, acc, calls => (Except.ok acc, calls)
  | Nat.succ fuelRest, page, acc, calls =>
    match fetch page with
    | Except.error e => (Except.error e, calls ++ [page])
    | Except.ok items =>
      if items.length = 0 then (Except.ok acc, calls ++ [page])
      else if items.length < dataExtPageSize then (Except.ok (acc ++ items), calls ++ [page])
      else getDataExtensionsPaged fetch fuelRest (page + 1) (acc ++ items) (calls ++ [page])

/-- GetDataExtensions of the data-extension service: paginate from page 1
with an empty accumulator. -/
def getDataExtensionsSvc (fetch : Nat → Except String (List DataExtension))
    (fuel : Nat) : Except String (List DataExtension) × List Nat :=
  getDataExtensionsPaged fetch fuel 1 [] []

/-! ## Retention-row update: the UpdateDataRetentionAPIUpdateStatus query
and the reconciliation eligibility filter (data_retention_properties.sql)

The row model keeps the columns the two queries read or write.  The retry
counter is kept as an optional integer: the reconciliation query guards
against NULL explicitly, and in SQL NULL + 1 is NULL (the schema itself
declares the column NOT NULL DEFAULT 0, so live rows always carry a
value). -/

structure DataRetentionRow where
  lastApiUpdateStatus : String
  lastApiUpdateError : Option String
  apiUpdateRetryCount : Option Int
  periodLength : Int
  periodUnitOfMeasure : Int
  isDeleteAtEnd : Bool
  isRowBased : Bool
  isResetOnImport : Bool
deriving DecidableEq, Repr

/-- The non-key arguments of UpdateDataRetentionAPIUpdateStatus. -/
structure RetentionStatusArgs where
  status : String
  errorText : Option String
  periodLength : Int
  periodUnitOfMeasure : Int
  isRowBased : Bool
deriving DecidableEq, Repr

/-- UpdateDataRetentionAPIUpdateStatus: sets the status and error columns,
applies the CASE expressions to the retry counter (failed increments,
succeeded resets to zero, anything else leaves it), and overwrites the
three retention-property columns only when the status is succeeded. -/
def updateDataRetentionAPIUpdateStatus (row : DataRetentionRow)
    (a : RetentionStatusArgs) : DataRetentionRow :=
  { row with
    lastApiUpdateStatus := a.status
    lastApiUpdateError := a.errorText
    apiUpdateRetryCount :=
      if a.status == "failed" then row.apiUpdateRetryCount.map (fun k => k + 1)
      else if a.status == "succeeded" then some 0
      else row.apiUpdateRetryCount
    periodLength := if a.status == "succeeded" then a.periodLength else row.periodLength
    periodUnitOfMeasure :=
      if a.status == "succeeded" then a.periodUnitOfMeasure else row.periodUnitOfMeasure
    isRowBased := if a.status == "succeeded" then a.isRowBased else row.isRowBased }

/-- The WHERE clause of GetDataExtensionsNeedingRetentionUpdate: status in
pending or failed, and retry counter below 5 or NULL. -/
def eligibleForRetentionReconciliation (row : DataRetentionRow) : Bool :=
  (row.lastApiUpdateStatus == "pending" || row.lastApiUpdateStatus == "failed")
    && (match row.apiUpdateRetryCount with
        | none => true
        | some k => k < 5)

def rowPending : DataRetentionRow :=
  { lastApiUpdateStatus := "pending", lastApiUpdateError := none,
    apiUpdateRetryCount := some 2, periodLength := 6, periodUnitOfMeasure := 2,
    isDeleteAtEnd := true, isRowBased := false, isResetOnImport := true }

def argsWith (s : String) : RetentionStatusArgs :=
  { status := s, errorText := none, periodLength := 1, periodUnitOfMeasure := 5,
    isRowBased := true }

def folderQ : Folder := { id := "Q", parentID := "0", name := "folder Q" }

def folderP : Folder := { id := "P", parentID := "Q", name := "folder P" }

/-! ## Metrics account exactly for the instrumented persistence attempts (C1)

Every metric increment in the orchestrator is paired with exactly one save
event at a metric-instrumented call site, and the resolver's save call
sites never touch the metrics.  The relation below says a state evolution
added as much to TotalSucceeded + TotalFailed as instrumented attempts to
the trace. -/

def MetricsBalanced (a b : RunState) : Prop :=
  b.totalMetrics + a.countedAttempts = b.countedAttempts + a.totalMetrics

/-! ## Which failures are fatal to the run (C8) -/

/-- Characterization of the fatal-error surface, written from the spec
propagation-policy wording as the counterexample forces it to be amended:
a run fails exactly when the root fetch fails or when the own-save of some
folder of the initially fetched set fails (whether or not that folder is
top-level). -/
def fatalRunSpec (env : Env) : Prop :=
  match env.getFolders with
  | Except.error _ => True
  | Except.ok entries => ∃ f ∈ entries, env.saveFolder f.id ≠ FolderSaveRes.ok

/-- The records of a batch whose remote update runs and fails. -/
def retFailCount (env : Env) (des : List DataExtension) : Nat :=
  des.countP (fun de =>
    (env.saveDataExtension de.id).isNone && (env.updateRetention de.id).isSome)

/-! ## The remote retention update service call (C10):
DataExtensionService.UpdateDataRetentionViaAPI

The Go function builds a literal payload, marks the row pending, calls the
remote update, and on the outcome marks the row failed (with the error
text truncated to 1000 characters) or succeeded; the status updates go
through the UpdateDataRetentionAPIUpdateStatus query modelled above.  The
model returns the payload handed to the remote call, the returned error
and the final local row. -/

structure DataRetentionProperties where
  periodLength : Int
  periodUnitOfMeasure : Int
  isDeleteAtEnd : Bool
  isRowBased : Bool
  isResetOnImport : Bool
deriving DecidableEq, Repr

/-- The literal payload of UpdateDataRetentionViaAPI: 1 month times 1,
unit-of-measure code 5 (months), row-based retention, no delete at end of
period, no reset on import. -/
def standardRetention : DataRetentionProperties :=
  { periodLength := 1, periodUnitOfMeasure := 5, isDeleteAtEnd := false,
    isRowBased := true, isResetOnImport := false }

/-- The five retention-property columns of a local row, as a payload
value, for comparing the stored state with the pushed constant. -/
def DataRetentionRow.storedProps (row : DataRetentionRow) : DataRetentionProperties :=
  { periodLength := row.periodLength, periodUnitOfMeasure := row.periodUnitOfMeasure,
    isDeleteAtEnd := row.isDeleteAtEnd, isRowBased := row.isRowBased,
    isResetOnImport := row.isResetOnImport }

def updateDataRetentionViaAPI (remote : DataRetentionProperties → Option String)
    (dataExtensionID : String) (row : DataRetentionRow) :
    DataRetentionProperties × Option String × DataRetentionRow :=
  let retention := standardRetention
  let row1 := updateDataRetentionAPIUpdateStatus row
    { status := "pending", errorText := none, periodLength := retention.periodLength,
      periodUnitOfMeasure := retention.periodUnitOfMeasure,
      isRowBased := retention.isRowBased }
  match remote retention with
  | some e =>
    let row2 := updateDataRetentionAPIUpdateStatus row1
      { status := "failed", errorText := some (e.take 1000),
        periodLength := retention.periodLength,
        periodUnitOfMeasure := retention.periodUnitOfMeasure,
        isRowBased := retention.isRowBased }
    (retention,
     some ("failed to update data retention via API for " ++ dataExtensionID ++ ": " ++ e),
     row2)
  | none =>
    let row2 := updateDataRetentionAPIUpdateStatus row1
      { status := "succeeded", errorText := none, periodLength := retention.periodLength,
        periodUnitOfMeasure := retention.periodUnitOfMeasure,
        isRowBased := retention.isRowBased }
    (retention, none, row2)

def rowDeleteAtEnd : DataRetentionRow :=
  { lastApiUpdateStatus := "pending", lastApiUpdateError := none,
    apiUpdateRetryCount := some 0, periodLength := 6, periodUnitOfMeasure := 2,
    isDeleteAtEnd := true, isRowBased := false, isResetOnImport := true }

/-! ## Theorems -/
/-- C6: For the input of three folders A (sentinel parent), B (parent A),
C (parent B) submitted to SaveFoldersInOrder in order C, B, A with all
three present in the known-folder map, all three folders are persisted
within at most 3 passes (here exactly 3), with A persisted no later than
B and B persisted no later than C: the save order is A, B, C. -/
theorem resolver_three_folder_chain_scenario :
    (saveFoldersInOrder envAllOk [folderC, folderB, folderA]
        [folderA, folderB, folderC] RunState.empty).saved = ["A", "B", "C"]
    ∧ (saveFoldersInOrder envAllOk [folderC, folderB, folderA]
        [folderA, folderB, folderC] RunState.empty).passTrace.length = 3
    ∧ (saveFoldersInOrder envAllOk [folderC, folderB, folderA]
        [folderA, folderB, folderC] RunState.empty).loggedUnsaved = none := by
  decide

/-- C1 counterexample: a run of SyncAll in which the hierarchy-resolver
stage (SaveFoldersInOrder) performs one folder persistence attempt and the
folder-processing stage performs another.  The run makes 2 folder
persistence attempts and 0 leaf attempts, yet TotalSucceeded + TotalFailed
is 1: the resolver-stage attempt is never counted in the metrics, refuting
TotalSucceeded + TotalFailed = N + M. -/
theorem syncAll_metrics_miss_resolver_attempts :
    ((syncAll envResolverCounts 2).1.totalSucceeded
      + (syncAll envResolverCounts 2).1.totalFailed = 1)
    ∧ (syncAll envResolverCounts 2).2.2.persistAttempts = 2
    ∧ (1 : Nat) ≠ 2 := by
  decide

/-- C2 counterexample: a one-record batch whose local save succeeds and
whose remote configuration update returns a permanent error.  The job
progress row records the failure (failed = 1) and the batch returns
success, but the run metrics record the record as a leaf SUCCESS
(DataExtensionsSucceeded = 1, DataExtensionsFailed = 0), refuting the
part of the claim that says the metrics record one leaf-record failure. -/
theorem syncDataExtensions_retention_failure_metrics :
    (syncDataExtensions envRetentionRejected "F1" RunState.empty).1 = none
    ∧ (syncDataExtensions envRetentionRejected "F1" RunState.empty).2.jobProgress
        = [{ processed := 1, succeeded := 0, failed := 1 }]
    ∧ (syncDataExtensions envRetentionRejected "F1" RunState.empty).2.metrics.dataExtensionsFailed = 0
    ∧ (syncDataExtensions envRetentionRejected "F1" RunState.empty).2.metrics.dataExtensionsSucceeded = 1 := by
  decide

/-- C3 counterexample: a one-record batch whose local save fails.  No
remote configuration update is issued (zero retentionUpdate events), yet
the progress row written for the job counts the record as a succeeded
item (succeeded = 1, failed = 0), because the preallocated
retention-result slot of a record whose save failed keeps its nil zero
value and nil entries are counted as successes.  This refutes the claim
that succeeded counts only successful remote updates. -/
theorem syncDataExtensions_save_failure_counted_as_update_success :
    (syncDataExtensions envSaveRefused "F2" RunState.empty).2.jobProgress
        = [{ processed := 1, succeeded := 1, failed := 0 }]
    ∧ (syncDataExtensions envSaveRefused "F2" RunState.empty).2.events.countP
        Event.isRetentionCall = 0
    ∧ (syncDataExtensions envSaveRefused "F2" RunState.empty).1 = none := by
  decide

/-- C4, evaluation at the failing input: a single folder with the sentinel
parent whose SaveFolder persistently fails with a non-foreign-key error.
The code comments and the spec say such a node is logged and not retried,
but SaveFoldersInOrder attempts it again on every pass: 5 persistence
attempts are made in one invocation instead of 1. -/
theorem saveFoldersInOrder_retries_non_fk_error :
    (saveFoldersInOrder envPersistentOtherError [folderX] [folderX]
        RunState.empty).run.events.countP Event.isResolverAttempt = 5
    ∧ (saveFoldersInOrder envPersistentOtherError [folderX] [folderX]
        RunState.empty).saved = []
    ∧ (saveFoldersInOrder envPersistentOtherError [folderX] [folderX]
        RunState.empty).errOut = none := by
  decide

/-- C8 counterexample: the fetched batch contains no top-level folder at
all, only a subfolder whose persistence fails.  The claim says only a
top-level persistence failure is fatal and every other failure is
recovered locally, yet this run returns an error: the folder-processing
stage makes any initially-fetched folder's own save failure fatal. -/
theorem syncAll_fatal_on_non_top_level_save_failure :
    ((syncAll envChildSaveFails 2).2.1).isSome = true
    ∧ [folderOrphan].filter isTopLevel = [] := by
  decide

/-- C7: when the first page returns exactly pageSize items and the second
page is empty, exactly 2 fetch calls are issued, for pages 1 and 2 in
order, and all and only the items of the first page are returned, for any
sufficient depth budget. -/
theorem getDataExtensions_two_page_scenario
    (fetch : Nat → Except String (List DataExtension))
    (items : List DataExtension) (fuel : Nat)
    (hlen : items.length = 96)
    (h1 : fetch 1 = Except.ok items)
    (h2 : fetch 2 = Except.ok []) :
    getDataExtensionsSvc fetch (fuel + 2) = (Except.ok items, [1, 2]) := by
  simp [getDataExtensionsSvc, getDataExtensionsPaged, h1, h2, hlen, dataExtPageSize]

/-- Witness for the two-page pagination scenario at a concrete fetch
function returning 96 concrete items then an empty page. -/
theorem getDataExtensions_two_page_scenario_witness :
    getDataExtensionsSvc
        (fun p => if p = 1 then Except.ok (List.replicate 96 dataExt1) else Except.ok [])
        5
      = (Except.ok (List.replicate 96 dataExt1), [1, 2]) :=
  getDataExtensions_two_page_scenario _ _ 3 (by simp) (by simp) (by simp)

/-- C9: the retry counter resets to exactly 0 on succeeded, increments by
exactly 1 on failed, and is unchanged on any other status; and a row is
eligible for the reconciliation query exactly when its status is pending
or failed and its retry counter is below 5 or NULL. -/
theorem retention_status_retry_counter_and_eligibility
    (row : DataRetentionRow) (a : RetentionStatusArgs) :
    (a.status = "succeeded" →
      (updateDataRetentionAPIUpdateStatus row a).apiUpdateRetryCount = some 0)
    ∧ (∀ k, a.status = "failed" → row.apiUpdateRetryCount = some k →
      (updateDataRetentionAPIUpdateStatus row a).apiUpdateRetryCount = some (k + 1))
    ∧ (a.status ≠ "succeeded" → a.status ≠ "failed" →
      (updateDataRetentionAPIUpdateStatus row a).apiUpdateRetryCount
        = row.apiUpdateRetryCount)
    ∧ (eligibleForRetentionReconciliation row = true ↔
      ((row.lastApiUpdateStatus = "pending" ∨ row.lastApiUpdateStatus = "failed")
        ∧ (row.apiUpdateRetryCount = none
            ∨ ∃ k, row.apiUpdateRetryCount = some k ∧ k < 5))) := by
  refine ⟨?_, ?_, ?_, ?_⟩
  · intro h
    simp [updateDataRetentionAPIUpdateStatus, h]
  · intro k h hk
    simp [updateDataRetentionAPIUpdateStatus, h, hk]
  · intro h1 h2
    simp [updateDataRetentionAPIUpdateStatus, h1, h2]
  · constructor
    · intro h
      simp only [eligibleForRetentionReconciliation, Bool.and_eq_true, Bool.or_eq_true,
        beq_iff_eq] at h
      refine ⟨h.1, ?_⟩
      cases hc : row.apiUpdateRetryCount with
      | none => exact Or.inl rfl
      | some k =>
        right
        refine ⟨k, rfl, ?_⟩
        have := h.2
        rw [hc] at this
        simpa using this
    · intro h
      simp only [eligibleForRetentionReconciliation, Bool.and_eq_true, Bool.or_eq_true,
        beq_iff_eq]
      refine ⟨h.1, ?_⟩
      rcases h.2 with hn | ⟨k, hk, hlt⟩
      · simp [hn]
      · simp [hk]
        exact_mod_cast hlt

/-- Witness for the retry-counter and eligibility theorem at a concrete
row with retry counter 2 and status pending, exercising all three status
branches and the eligibility equivalence. -/
theorem retention_status_retry_counter_and_eligibility_witness :
    (updateDataRetentionAPIUpdateStatus rowPending (argsWith "succeeded")).apiUpdateRetryCount = some 0
    ∧ (updateDataRetentionAPIUpdateStatus rowPending (argsWith "failed")).apiUpdateRetryCount = some 3
    ∧ (updateDataRetentionAPIUpdateStatus rowPending (argsWith "pending")).apiUpdateRetryCount = some 2
    ∧ ((rowPending.lastApiUpdateStatus = "pending" ∨ rowPending.lastApiUpdateStatus = "failed")
        ∧ (rowPending.apiUpdateRetryCount = none
            ∨ ∃ k, rowPending.apiUpdateRetryCount = some k ∧ k < 5)) :=
  ⟨(retention_status_retry_counter_and_eligibility rowPending (argsWith "succeeded")).1 rfl,
   (retention_status_retry_counter_and_eligibility rowPending (argsWith "failed")).2.1 2 rfl rfl,
   (retention_status_retry_counter_and_eligibility rowPending
      (argsWith "pending")).2.2.1 (by decide) (by decide),
   (retention_status_retry_counter_and_eligibility rowPending
      (argsWith "pending")).2.2.2.mp (by decide)⟩

/-! ## Resolver pass ceiling, early exit and best-effort return (C5) -/

/-- Invariant of the retry loop of SaveFoldersInOrder: with the passes
executed so far all unsuccessful and the remaining budget adding up to the
ceiling of 5, the loop returns success, runs at most 5 passes in total,
never runs a pass after an all-saved pass, and logs exactly the unsaved
report when and only when all 5 passes ran without an all-saved pass. -/
theorem resolverLoop_spec (env : Env) (folders folderMap : List Folder) :
    ∀ (fuel : Nat) (st : ResolverState) (trace : List Bool),
    (∀ b ∈ trace, b = false) → trace.length + fuel = 5 →
    (resolverLoop env folders folderMap fuel st trace).errOut = none
    ∧ (resolverLoop env folders folderMap fuel st trace).passTrace.length ≤ 5
    ∧ (∀ b ∈ (resolverLoop env folders folderMap fuel st trace).passTrace.dropLast, b = false)
    ∧ ((resolverLoop env folders folderMap fuel st trace).loggedUnsaved = none
        ∨ (resolverLoop env folders folderMap fuel st trace).loggedUnsaved
          = some (unsavedReport folders
              (resolverLoop env folders folderMap fuel st trace).saved))
    ∧ ((resolverLoop env folders folderMap fuel st trace).loggedUnsaved.isSome ↔
        (resolverLoop env folders folderMap fuel st trace).passTrace
          = [false, false, false, false, false]) := by
  intro fuel
  induction fuel with
  | zero =>
    intro st trace htrace hlen
    have htr : trace = List.replicate 5 false :=
      List.eq_replicate_iff.mpr ⟨by omega, htrace⟩
    have hr : resolverLoop env folders folderMap 0 st trace =
        { saved := st.saved, passTrace := trace,
          loggedUnsaved := some (unsavedReport folders st.saved),
          errOut := none, run := st.run } := rfl
    rw [hr]
    refine ⟨rfl, ?_, ?_, Or.inr rfl, ?_⟩
    · show trace.length ≤ 5
      omega
    · intro b hb
      exact htrace b ((List.dropLast_sublist trace).subset hb)
    · constructor
      · intro _
        show trace = [false, false, false, false, false]
        exact htr.trans rfl
      · intro _
        rfl
  | succ n ih =>
    intro st trace htrace hlen
    rcases hout : resolverPass env folderMap folders st true with ⟨st1, allSaved⟩
    cases allSaved with
    | true =>
      have hr : resolverLoop env folders folderMap (n + 1) st trace =
          { saved := st1.saved, passTrace := trace ++ [true], loggedUnsaved := none,
            errOut := none, run := st1.run } := by
        simp [resolverLoop, hout]
      rw [hr]
      refine ⟨rfl, ?_, ?_, Or.inl rfl, ?_⟩
      · show (trace ++ [true]).length ≤ 5
        simp only [List.length_append, List.length_cons, List.length_nil]
        omega
      · intro b hb
        have hb2 : b ∈ (trace ++ [true]).dropLast := hb
        rw [List.dropLast_concat] at hb2
        exact htrace b hb2
      · constructor
        · intro h
          simp at h
        · intro h
          exfalso
          have h2 : trace ++ [true] = [false, false, false, false, false] := h
          have hmem : true ∈ trace ++ [true] := by simp
          rw [h2] at hmem
          simp at hmem
    | false =>
      have hr : resolverLoop env folders folderMap (n + 1) st trace =
          resolverLoop env folders folderMap n st1 (trace ++ [false]) := by
        simp [resolverLoop, hout]
      rw [hr]
      refine ih st1 (trace ++ [false]) ?_ ?_
      · intro b hb
        rcases List.mem_append.mp hb with h | h
        · exact htrace b h
        · simpa using h
      · simp only [List.length_append, List.length_cons, List.length_nil]
        omega

/-- C5: SaveFoldersInOrder performs at most 5 passes, returns success
(nil) in every case, never runs a pass after a pass in which every node
was saved (early termination), and logs the still-unsaved set exactly
when all 5 passes ran without saving every node. -/
theorem saveFoldersInOrder_pass_ceiling (env : Env) (folders folderMap : List Folder)
    (run : RunState) :
    (saveFoldersInOrder env folders folderMap run).errOut = none
    ∧ (saveFoldersInOrder env folders folderMap run).passTrace.length ≤ 5
    ∧ (∀ b ∈ (saveFoldersInOrder env folders folderMap run).passTrace.dropLast, b = false)
    ∧ ((saveFoldersInOrder env folders folderMap run).loggedUnsaved = none
        ∨ (saveFoldersInOrder env folders folderMap run).loggedUnsaved
          = some (unsavedReport folders (saveFoldersInOrder env folders folderMap run).saved))
    ∧ ((saveFoldersInOrder env folders folderMap run).loggedUnsaved.isSome ↔
        (saveFoldersInOrder env folders folderMap run).passTrace
          = [false, false, false, false, false]) :=
  resolverLoop_spec env folders folderMap 5 { saved := [], run := run } []
    (by intro b hb; simp at hb) (by simp)

/-- Witness for the pass-ceiling theorem: a two-folder batch submitted
child-first needs two passes, so its pass trace has a non-final pass,
which the theorem forces to be unsuccessful. -/
theorem saveFoldersInOrder_pass_ceiling_witness :
    (saveFoldersInOrder envAllOk [folderP, folderQ] [folderP, folderQ]
        RunState.empty).errOut = none
    ∧ false ∈ (saveFoldersInOrder envAllOk [folderP, folderQ] [folderP, folderQ]
        RunState.empty).passTrace.dropLast
    ∧ false = false :=
  ⟨(saveFoldersInOrder_pass_ceiling envAllOk [folderP, folderQ] [folderP, folderQ]
      RunState.empty).1,
   by decide,
   (saveFoldersInOrder_pass_ceiling envAllOk [folderP, folderQ] [folderP, folderQ]
      RunState.empty).2.2.1 false (by decide)⟩

theorem MetricsBalanced.of_id (a : RunState) : MetricsBalanced a a := by
  unfold MetricsBalanced
  omega

theorem MetricsBalanced.comp {a b c : RunState}
    (h1 : MetricsBalanced a b) (h2 : MetricsBalanced b c) : MetricsBalanced a c := by
  unfold MetricsBalanced at h1 h2 ⊢
  omega

theorem totalMetrics_addEvent (run : RunState) (e : Event) :
    (run.addEvent e).totalMetrics = run.totalMetrics := rfl

theorem countedAttempts_addEvent (run : RunState) (e : Event) :
    (run.addEvent e).countedAttempts
      = run.countedAttempts + (if e.isCountedAttempt then 1 else 0) := by
  simp [RunState.addEvent, RunState.countedAttempts, List.countP_append, List.countP_cons]

theorem countedAttempts_withMetrics (run : RunState) (f : SyncMetrics → SyncMetrics) :
    (run.withMetrics f).countedAttempts = run.countedAttempts := rfl

/-- A save event at an instrumented call site together with the matching
single metric increment leaves the account balanced. -/
theorem balanced_counted_step (run : RunState) (e : Event) (f : SyncMetrics → SyncMetrics)
    (he : e.isCountedAttempt = true)
    (hf : (f run.metrics).totalSucceeded + (f run.metrics).totalFailed
      = run.metrics.totalSucceeded + run.metrics.totalFailed + 1) :
    MetricsBalanced run ((run.addEvent e).withMetrics f) := by
  unfold MetricsBalanced
  have hev : ((run.addEvent e).withMetrics f).countedAttempts = run.countedAttempts + 1 := by
    rw [countedAttempts_withMetrics, countedAttempts_addEvent, he]
    simp
  have hm : ((run.addEvent e).withMetrics f).totalMetrics = run.totalMetrics + 1 := by
    show (f run.metrics).totalSucceeded + (f run.metrics).totalFailed = run.totalMetrics + 1
    rw [hf]
    rfl
  rw [hev, hm]
  omega

theorem totalMetrics_addFolderSuccess (m : SyncMetrics) :
    m.addFolderSuccess.totalSucceeded + m.addFolderSuccess.totalFailed
      = m.totalSucceeded + m.totalFailed + 1 := by
  simp [SyncMetrics.addFolderSuccess, SyncMetrics.totalSucceeded, SyncMetrics.totalFailed]
  omega

theorem totalMetrics_addFolderFailure (m : SyncMetrics) :
    m.addFolderFailure.totalSucceeded + m.addFolderFailure.totalFailed
      = m.totalSucceeded + m.totalFailed + 1 := by
  simp [SyncMetrics.addFolderFailure, SyncMetrics.totalSucceeded, SyncMetrics.totalFailed]
  omega

theorem totalMetrics_addSubfolderSuccess (m : SyncMetrics) :
    m.addSubfolderSuccess.totalSucceeded + m.addSubfolderSuccess.totalFailed
      = m.totalSucceeded + m.totalFailed + 1 := by
  simp [SyncMetrics.addSubfolderSuccess, SyncMetrics.totalSucceeded, SyncMetrics.totalFailed]
  omega

theorem totalMetrics_addSubfolderFailure (m : SyncMetrics) :
    m.addSubfolderFailure.totalSucceeded + m.addSubfolderFailure.totalFailed
      = m.totalSucceeded + m.totalFailed + 1 := by
  simp [SyncMetrics.addSubfolderFailure, SyncMetrics.totalSucceeded, SyncMetrics.totalFailed]
  omega

/-- The resolver step changes neither the metrics totals nor the counted
attempts: its only trace additions are saveInOrder events, which no metric
call site accompanies. -/
theorem resolverStep_preserves (env : Env) (folderMap : List Folder) (f : Folder)
    (st : ResolverState) (allSaved : Bool) :
    (resolverStep env folderMap f st allSaved).1.run.totalMetrics = st.run.totalMetrics
    ∧ (resolverStep env folderMap f st allSaved).1.run.countedAttempts
      = st.run.countedAttempts := by
  rw [resolverStep]
  split
  · exact ⟨rfl, rfl⟩
  · split
    · exact ⟨rfl, rfl⟩
    · split
      · refine ⟨rfl, ?_⟩
        show (st.run.addEvent (Event.saveInOrder f.id FolderSaveRes.ok)).countedAttempts
          = st.run.countedAttempts
        rw [countedAttempts_addEvent]
        simp [Event.isCountedAttempt]
      · refine ⟨rfl, ?_⟩
        rw [countedAttempts_addEvent]
        simp [Event.isCountedAttempt]

theorem resolverPass_preserves (env : Env) (folderMap : List Folder) :
    ∀ (folders : List Folder) (st : ResolverState) (allSaved : Bool),
    (resolverPass env folderMap folders st allSaved).1.run.totalMetrics
      = st.run.totalMetrics
    ∧ (resolverPass env folderMap folders st allSaved).1.run.countedAttempts
      = st.run.countedAttempts := by
  intro folders
  induction folders with
  | nil => intro st allSaved; exact ⟨rfl, rfl⟩
  | cons f rest ih =>
    intro st allSaved
    rw [resolverPass]
    have h1 := resolverStep_preserves env folderMap f st allSaved
    have h2 := ih (resolverStep env folderMap f st allSaved).1
      (resolverStep env folderMap f st allSaved).2
    exact ⟨h2.1.trans h1.1, h2.2.trans h1.2⟩

theorem resolverLoop_preserves (env : Env) (folders folderMap : List Folder) :
    ∀ (fuel : Nat) (st : ResolverState) (trace : List Bool),
    (resolverLoop env folders folderMap fuel st trace).run.totalMetrics
      = st.run.totalMetrics
    ∧ (resolverLoop env folders folderMap fuel st trace).run.countedAttempts
      = st.run.countedAttempts := by
  intro fuel
  induction fuel with
  | zero => intro st trace; exact ⟨rfl, rfl⟩
  | succ n ih =>
    intro st trace
    rw [resolverLoop]
    have hp := resolverPass_preserves env folderMap folders st true
    split
    · exact ⟨hp.1, hp.2⟩
    · have hr := ih (resolverPass env folderMap folders st true).1 (trace ++ [false])
      exact ⟨hr.1.trans hp.1, hr.2.trans hp.2⟩

theorem saveFoldersInOrder_preserves (env : Env) (folders folderMap : List Folder)
    (run : RunState) :
    (saveFoldersInOrder env folders folderMap run).run.totalMetrics = run.totalMetrics
    ∧ (saveFoldersInOrder env folders folderMap run).run.countedAttempts
      = run.countedAttempts :=
  resolverLoop_preserves env folders folderMap 5 { saved := [], run := run } []

theorem totalMetrics_addDataExtensions (run : RunState) (s f : Nat) :
    (run.withMetrics (fun m => m.addDataExtensions s f)).totalMetrics
      = run.totalMetrics + s + f := by
  simp [RunState.withMetrics, RunState.totalMetrics, SyncMetrics.addDataExtensions,
    SyncMetrics.totalSucceeded, SyncMetrics.totalFailed]
  omega

/-- Per-record processing adds exactly one instrumented attempt to the
trace (the saveDataExt event; a retentionUpdate event is not counted) and
touches neither the metrics nor the job records. -/
theorem processDataExtension_shape (env : Env) (de : DataExtension) (run : RunState) :
    (processDataExtension env de run).2.metrics = run.metrics
    ∧ (processDataExtension env de run).2.countedAttempts = run.countedAttempts + 1
    ∧ (processDataExtension env de run).2.jobCreates = run.jobCreates
    ∧ (processDataExtension env de run).2.jobProgress = run.jobProgress
    ∧ (processDataExtension env de run).2.jobCompletions = run.jobCompletions := by
  rw [processDataExtension]
  split
  · refine ⟨rfl, ?_, rfl, rfl, rfl⟩
    rw [countedAttempts_addEvent]
    simp [Event.isCountedAttempt]
  · split
    · refine ⟨rfl, ?_, rfl, rfl, rfl⟩
      rw [countedAttempts_addEvent, countedAttempts_addEvent]
      simp [Event.isCountedAttempt]
    · refine ⟨rfl, ?_, rfl, rfl, rfl⟩
      rw [countedAttempts_addEvent, countedAttempts_addEvent]
      simp [Event.isCountedAttempt]

theorem processDataExtensions_shape (env : Env) :
    ∀ (des : List DataExtension) (run : RunState),
    (processDataExtensions env des run).2.metrics = run.metrics
    ∧ (processDataExtensions env des run).2.countedAttempts
      = run.countedAttempts + des.length
    ∧ (processDataExtensions env des run).1.length = des.length
    ∧ (processDataExtensions env des run).2.jobCreates = run.jobCreates
    ∧ (processDataExtensions env des run).2.jobProgress = run.jobProgress
    ∧ (processDataExtensions env des run).2.jobCompletions = run.jobCompletions := by
  intro des
  induction des with
  | nil =>
    intro run
    exact ⟨rfl, rfl, rfl, rfl, rfl, rfl⟩
  | cons de rest ih =>
    intro run
    rw [processDataExtensions]
    have h1 := processDataExtension_shape env de run
    have h2 := ih (processDataExtension env de run).2
    refine ⟨h2.1.trans h1.1, ?_, ?_, h2.2.2.2.1.trans h1.2.2.1,
      h2.2.2.2.2.1.trans h1.2.2.2.1, h2.2.2.2.2.2.trans h1.2.2.2.2⟩
    · rw [h2.2.1, h1.2.1]
      simp [List.length_cons]
      omega
    · simp [List.length_cons, h2.2.2.1]
  
/-- In every result list, each record is counted once between the save
successes and the save failures. -/
theorem length_filter_save_split (l : List (Option String × Option String)) :
    (l.filter (fun r => r.1.isNone)).length + (l.filter (fun r => r.1.isSome)).length
      = l.length := by
  induction l with
  | nil => rfl
  | cons r rest ih =>
    rcases r with ⟨s, t⟩
    cases s with
    | none => simp [List.filter, ih.symm]; omega
    | some e => simp [List.filter, ih.symm]; omega

/-- The leaf-record batch stage is balanced: its metric additions equal
the instrumented attempts it adds to the trace. -/
theorem syncDataExtensions_balanced (env : Env) (folderID : String) (run : RunState) :
    MetricsBalanced run (syncDataExtensions env folderID run).2 := by
  rw [syncDataExtensions]
  cases hf : env.getDataExtensions folderID with
  | error e =>
    exact MetricsBalanced.of_id run
  | ok des =>
    simp only
    set jobCreated := decide (0 < des.length) && env.createSyncJob folderID with hjc
    set run1 := if jobCreated then
        { run with jobCreates := run.jobCreates ++ [(folderID, des.length)] }
      else run with hrun1
    have hrun1m : run1.totalMetrics = run.totalMetrics := by
      rw [hrun1]
      split
      · rfl
      · rfl
    have hrun1c : run1.countedAttempts = run.countedAttempts := by
      rw [hrun1]
      split
      · rfl
      · rfl
    have hp := processDataExtensions_shape env des run1
    set outs := processDataExtensions env des run1 with houts
    set succeeded := (outs.1.filter (fun r => r.1.isNone)).length with hsucc
    set failed := (outs.1.filter (fun r => r.1.isSome)).length with hfail
    have hsf : succeeded + failed = des.length := by
      rw [hsucc, hfail]
      rw [length_filter_save_split]
      exact hp.2.2.1
    set run2 := outs.2.withMetrics (fun m => m.addDataExtensions succeeded failed) with hrun2
    have hrun2m : run2.totalMetrics = outs.2.totalMetrics + succeeded + failed := by
      rw [hrun2]
      exact totalMetrics_addDataExtensions outs.2 succeeded failed
    have hrun2c : run2.countedAttempts = outs.2.countedAttempts := rfl
    have houtm : outs.2.totalMetrics = run.totalMetrics := by
      have hm1 : outs.2.totalMetrics = run1.totalMetrics := by
        show outs.2.metrics.totalSucceeded + outs.2.metrics.totalFailed = run1.totalMetrics
        rw [hp.1]
        rfl
      rw [hm1, hrun1m]
    have houtc : outs.2.countedAttempts = run.countedAttempts + des.length := by
      rw [hp.2.1, hrun1c]
    unfold MetricsBalanced
    split
    · show run2.totalMetrics + run.countedAttempts
        = run2.countedAttempts + run.totalMetrics
      rw [hrun2m, hrun2c, houtm, houtc]
      omega
    · show run2.totalMetrics + run.countedAttempts
        = run2.countedAttempts + run.totalMetrics
      rw [hrun2m, hrun2c, houtm, houtc]
      omega

theorem subfolderStep_balanced (env : Env)
    (deeper : Folder → RunState → Option String × RunState) (recursive : Bool)
    (hdeeper : ∀ f r, MetricsBalanced r (deeper f r).2) :
    ∀ (run : RunState) (sub : Folder),
    MetricsBalanced run (subfolderStep env deeper recursive run sub) := by
  intro run sub
  rw [subfolderStep]
  split
  · have hstep : MetricsBalanced run
        ((run.addEvent (Event.saveSubfolder sub.id true)).withMetrics
          SyncMetrics.addSubfolderSuccess) :=
      balanced_counted_step run _ _ rfl (totalMetrics_addSubfolderSuccess run.metrics)
    split
    · exact hstep.comp (hdeeper sub _)
    · exact hstep.comp (syncDataExtensions_balanced env sub.id _)
  · exact balanced_counted_step run _ _ rfl (totalMetrics_addSubfolderFailure run.metrics)

theorem foldl_balanced (g : RunState → Folder → RunState)
    (hg : ∀ run x, MetricsBalanced run (g run x)) :
    ∀ (l : List Folder) (run : RunState), MetricsBalanced run (l.foldl g run) := by
  intro l
  induction l with
  | nil => intro run; exact MetricsBalanced.of_id run
  | cons x rest ih =>
    intro run
    rw [List.foldl_cons]
    exact (hg run x).comp (ih (g run x))

/-- The per-folder walk is balanced: every metric increment it makes is
matched by exactly one instrumented save event in the trace. -/
theorem syncFolder_balanced (env : Env) :
    ∀ (fuel : Nat) (folder : Folder) (recursive : Bool) (run : RunState),
    MetricsBalanced run (syncFolder env fuel folder recursive run).2 := by
  intro fuel
  induction fuel with
  | zero => intro folder recursive run; exact MetricsBalanced.of_id run
  | succ fuelRest ih =>
    intro folder recursive run
    rw [syncFolder]
    split
    · have h1 : MetricsBalanced run
          ((run.addEvent (Event.saveFolderProc folder.id true)).withMetrics
            SyncMetrics.addFolderSuccess) :=
        balanced_counted_step run _ _ rfl (totalMetrics_addFolderSuccess run.metrics)
      show MetricsBalanced run (syncDataExtensions env folder.id _).2
      split
      · exact h1.comp (syncDataExtensions_balanced env folder.id _)
      · refine (h1.comp ?_).comp (syncDataExtensions_balanced env folder.id _)
        exact foldl_balanced _
          (subfolderStep_balanced env _ recursive (fun f r => ih f true r)) _ _
    · exact balanced_counted_step run _ _ rfl (totalMetrics_addFolderFailure run.metrics)

theorem syncStep1_balanced (env : Env) :
    ∀ (l : List Folder) (run : RunState), MetricsBalanced run (syncStep1 env l run).2 := by
  intro l
  induction l with
  | nil => intro run; exact MetricsBalanced.of_id run
  | cons f rest ih =>
    intro run
    rw [syncStep1]
    split
    · exact (balanced_counted_step run (Event.saveTopLevel f.id true)
        SyncMetrics.addFolderSuccess rfl
        (totalMetrics_addFolderSuccess run.metrics)).comp (ih _)
    · exact (balanced_counted_step run (Event.saveTopLevel f.id false)
        SyncMetrics.addFolderFailure rfl
        (totalMetrics_addFolderFailure run.metrics)).comp (ih _)

theorem syncStep3_balanced (env : Env) (fuel : Nat) :
    ∀ (l : List Folder) (run : RunState), MetricsBalanced run (syncStep3 env fuel l run).2 := by
  intro l
  induction l with
  | nil => intro run; exact MetricsBalanced.of_id run
  | cons f rest ih =>
    intro run
    rw [syncStep3]
    exact (syncFolder_balanced env fuel f true run).comp (ih _)

theorem saveFoldersInOrder_balanced (env : Env) (folders folderMap : List Folder)
    (run : RunState) :
    MetricsBalanced run (saveFoldersInOrder env folders folderMap run).run := by
  unfold MetricsBalanced
  rw [(saveFoldersInOrder_preserves env folders folderMap run).1,
    (saveFoldersInOrder_preserves env folders folderMap run).2]
  omega

theorem syncFolders_balanced (env : Env) (fuel : Nat) (run : RunState) :
    MetricsBalanced run (syncFolders env fuel run).2 := by
  rw [syncFolders]
  cases hgf : env.getFolders with
  | error e => exact MetricsBalanced.of_id run
  | ok entries =>
    simp only
    have h1 : MetricsBalanced run (syncStep1 env (entries.filter isTopLevel) run).2 :=
      syncStep1_balanced env _ run
    split
    · exact h1
    · set out1 := syncStep1 env (entries.filter isTopLevel) run with hout1
      set run2 := if 0 < (entries.filter (fun f => !(isTopLevel f))).length then
          (saveFoldersInOrder env (entries.filter (fun f => !(isTopLevel f))) entries out1.2).run
        else out1.2 with hrun2
      have h2 : MetricsBalanced out1.2 run2 := by
        rw [hrun2]
        split
        · exact saveFoldersInOrder_balanced env _ entries out1.2
        · exact MetricsBalanced.of_id out1.2
      have h3 : MetricsBalanced run2 (syncStep3 env fuel entries run2).2 :=
        syncStep3_balanced env fuel entries run2
      split
      · exact (h1.comp h2).comp h3
      · exact (h1.comp h2).comp h3

/-- Every event class is either an instrumented attempt, a resolver
attempt, or a remote configuration update. -/
theorem countP_counted_add_resolver :
    ∀ (l : List Event),
    l.countP Event.isCountedAttempt + l.countP Event.isResolverAttempt
      = l.countP Event.isPersistAttempt := by
  intro l
  induction l with
  | nil => rfl
  | cons e rest ih =>
    rw [List.countP_cons, List.countP_cons, List.countP_cons]
    cases e <;>
      simp [Event.isCountedAttempt, Event.isResolverAttempt, Event.isPersistAttempt] <;>
      omega

theorem syncAll_components (env : Env) (fuel : Nat) :
    (syncAll env fuel).1 = (syncAll env fuel).2.2.metrics
    ∧ (syncAll env fuel).2.2 = (syncFolders env fuel RunState.empty).2 := by
  rw [syncAll]
  cases ho : (syncFolders env fuel RunState.empty).1 with
  | none => exact ⟨rfl, rfl⟩
  | some e => exact ⟨rfl, rfl⟩

/-- C1, amended: in every run of SyncAll, TotalSucceeded + TotalFailed
equals exactly the number of persistence attempts made at the
metric-instrumented call sites, each such attempt counted exactly once;
together with the second conjunct, the instrumented attempts are exactly
all folder, subfolder and leaf persistence attempts minus the attempts
made inside the hierarchy-resolver stage, which the metrics never see. -/
theorem syncAll_totals_count_instrumented_attempts (env : Env) (fuel : Nat) :
    (syncAll env fuel).1.totalSucceeded + (syncAll env fuel).1.totalFailed
      = (syncAll env fuel).2.2.countedAttempts
    ∧ (syncAll env fuel).2.2.countedAttempts
        + (syncAll env fuel).2.2.events.countP Event.isResolverAttempt
      = (syncAll env fuel).2.2.persistAttempts := by
  have hc := syncAll_components env fuel
  have hb : MetricsBalanced RunState.empty (syncFolders env fuel RunState.empty).2 :=
    syncFolders_balanced env fuel RunState.empty
  unfold MetricsBalanced at hb
  constructor
  · have h1 : (syncAll env fuel).1.totalSucceeded + (syncAll env fuel).1.totalFailed
        = (syncAll env fuel).2.2.totalMetrics := by
      rw [hc.1]
      rfl
    rw [h1, hc.2]
    have h0m : RunState.empty.totalMetrics = 0 := rfl
    have h0c : RunState.empty.countedAttempts = 0 := rfl
    omega
  · exact countP_counted_add_resolver (syncAll env fuel).2.2.events

theorem syncFolder_err_iff (env : Env) (fuelRest : Nat) (folder : Folder)
    (recursive : Bool) (run : RunState) :
    (syncFolder env (fuelRest + 1) folder recursive run).1.isSome
      ↔ env.saveFolder folder.id ≠ FolderSaveRes.ok := by
  rw [syncFolder]
  cases hs : env.saveFolder folder.id with
  | ok => simp
  | fkViolation e => simp
  | otherErr e => simp

theorem syncStep1_err_iff (env : Env) :
    ∀ (l : List Folder) (run : RunState),
    (syncStep1 env l run).1 = true ↔ ∃ f ∈ l, env.saveFolder f.id ≠ FolderSaveRes.ok := by
  intro l
  induction l with
  | nil =>
    intro run
    simp [syncStep1]
  | cons f rest ih =>
    intro run
    rw [syncStep1]
    cases hs : env.saveFolder f.id with
    | ok =>
      rw [ih]
      constructor
      · intro ⟨g, hg, hgs⟩
        exact ⟨g, List.mem_cons_of_mem f hg, hgs⟩
      · intro ⟨g, hg, hgs⟩
        rcases List.mem_cons.mp hg with h | h
        · exfalso
          rw [h, hs] at hgs
          exact hgs rfl
        · exact ⟨g, h, hgs⟩
    | fkViolation e =>
      simp only [true_iff]
      exact ⟨f, List.mem_cons_self f rest, by rw [hs]; intro h; cases h⟩
    | otherErr e =>
      simp only [true_iff]
      exact ⟨f, List.mem_cons_self f rest, by rw [hs]; intro h; cases h⟩

theorem syncStep3_err_iff (env : Env) (fuelRest : Nat) :
    ∀ (l : List Folder) (run : RunState),
    (syncStep3 env (fuelRest + 1) l run).1 = true
      ↔ ∃ f ∈ l, env.saveFolder f.id ≠ FolderSaveRes.ok := by
  intro l
  induction l with
  | nil =>
    intro run
    simp [syncStep3]
  | cons f rest ih =>
    intro run
    rw [syncStep3]
    simp only [Bool.or_eq_true]
    rw [syncFolder_err_iff, ih]
    constructor
    · intro h
      rcases h with h | ⟨g, hg, hgs⟩
      · exact ⟨f, List.mem_cons_self f rest, h⟩
      · exact ⟨g, List.mem_cons_of_mem f hg, hgs⟩
    · intro ⟨g, hg, hgs⟩
      rcases List.mem_cons.mp hg with h | h
      · exact Or.inl (h ▸ hgs)
      · exact Or.inr ⟨g, h, hgs⟩

theorem syncFolders_err_iff (env : Env) (fuelRest : Nat) (run : RunState) :
    (syncFolders env (fuelRest + 1) run).1.isSome ↔ fatalRunSpec env := by
  rw [syncFolders]
  cases hgf : env.getFolders with
  | error e =>
    simp [fatalRunSpec, hgf]
  | ok entries =>
    simp only [fatalRunSpec, hgf]
    cases h1 : (syncStep1 env (entries.filter isTopLevel) run).1 with
    | true =>
      simp only [h1, if_pos, Option.isSome_some, true_iff]
      obtain ⟨f, hf, hfs⟩ := (syncStep1_err_iff env (entries.filter isTopLevel) run).mp h1
      exact ⟨f, (List.mem_filter.mp hf).1, hfs⟩
    | false =>
      simp only [h1, Bool.false_eq_true, if_neg, not_false_eq_true]
      cases h3 : (syncStep3 env (fuelRest + 1) entries
          (if 0 < (entries.filter (fun f => !(isTopLevel f))).length then
            (saveFoldersInOrder env (entries.filter (fun f => !(isTopLevel f))) entries
              (syncStep1 env (entries.filter isTopLevel) run).2).run
          else (syncStep1 env (entries.filter isTopLevel) run).2)).1 with
      | true =>
        simp only [h3, if_pos, Option.isSome_some, true_iff]
        exact (syncStep3_err_iff env fuelRest entries _).mp h3
      | false =>
        simp only [h3, Bool.false_eq_true, if_neg, not_false_eq_true, Option.isSome_none,
          Bool.false_eq_true, false_iff]
        intro hex
        have := (syncStep3_err_iff env fuelRest entries
          (if 0 < (entries.filter (fun f => !(isTopLevel f))).length then
            (saveFoldersInOrder env (entries.filter (fun f => !(isTopLevel f))) entries
              (syncStep1 env (entries.filter isTopLevel) run).2).run
          else (syncStep1 env (entries.filter isTopLevel) run).2)).mpr hex
        rw [h3] at this
        cases this

/-- C8, amended: the run is fatal exactly when the root fetch fails or
the own-save of some folder of the initially fetched set fails, whether
top-level or not (a top-level stage-1 failure is one such case); every
other failure of the walk is absorbed into the metrics and job records,
and the run returns the accumulated metrics summary in every case,
including the error cases. -/
theorem syncAll_fatal_characterization (env : Env) (fuel : Nat) :
    ((syncAll env (fuel + 1)).2.1.isSome ↔ fatalRunSpec env)
    ∧ (syncAll env (fuel + 1)).1 = (syncAll env (fuel + 1)).2.2.metrics := by
  refine ⟨?_, (syncAll_components env (fuel + 1)).1⟩
  rw [syncAll]
  cases ho : (syncFolders env (fuel + 1) RunState.empty).1 with
  | none =>
    have h := syncFolders_err_iff env fuel RunState.empty
    rw [ho] at h
    simpa using h
  | some e =>
    have h := syncFolders_err_iff env fuel RunState.empty
    rw [ho] at h
    simpa using h

/-! ## What the job progress row counts (C2, C3) -/

/-- C2, amended: for a one-record batch whose local save succeeds and
whose remote configuration update returns a (permanent) error, the job
progress row records the failure (failed = 1, succeeded = 0), the batch
returns success so no error propagates past it, and the run metrics count
the record by its persistence outcome: one leaf-record success and no
leaf-record failure. -/
theorem syncDataExtensions_save_ok_retention_failed (env : Env) (folderID : String)
    (run : RunState) (de : DataExtension)
    (hf : env.getDataExtensions folderID = Except.ok [de])
    (hsave : env.saveDataExtension de.id = none)
    (hret : (env.updateRetention de.id).isSome = true)
    (hjob : env.createSyncJob folderID = true) :
    (syncDataExtensions env folderID run).1 = none
    ∧ (syncDataExtensions env folderID run).2.jobProgress
        = run.jobProgress ++ [{ processed := 1, succeeded := 0, failed := 1 }]
    ∧ (syncDataExtensions env folderID run).2.metrics.dataExtensionsSucceeded
        = run.metrics.dataExtensionsSucceeded + 1
    ∧ (syncDataExtensions env folderID run).2.metrics.dataExtensionsFailed
        = run.metrics.dataExtensionsFailed := by
  obtain ⟨e, he⟩ := Option.isSome_iff_exists.mp hret
  rw [syncDataExtensions, hf]
  simp [processDataExtensions, processDataExtension, hsave, he, hjob,
    RunState.addEvent, RunState.withMetrics, SyncMetrics.addDataExtensions]

/-- Witness for the amended C2 theorem at the concrete environment with a
permanently rejected remote update. -/
theorem syncDataExtensions_save_ok_retention_failed_witness :
    (syncDataExtensions envRetentionRejected "F1" RunState.empty).1 = none
    ∧ (syncDataExtensions envRetentionRejected "F1" RunState.empty).2.jobProgress
        = RunState.empty.jobProgress ++ [{ processed := 1, succeeded := 0, failed := 1 }]
    ∧ (syncDataExtensions envRetentionRejected "F1" RunState.empty).2.metrics.dataExtensionsSucceeded
        = RunState.empty.metrics.dataExtensionsSucceeded + 1
    ∧ (syncDataExtensions envRetentionRejected "F1" RunState.empty).2.metrics.dataExtensionsFailed
        = RunState.empty.metrics.dataExtensionsFailed :=
  syncDataExtensions_save_ok_retention_failed envRetentionRejected "F1" RunState.empty
    dataExt1 rfl rfl rfl rfl

/-- In every result list, each record is counted once between the
retention-slot successes and the retention-slot failures. -/
theorem length_filter_ret_split (l : List (Option String × Option String)) :
    (l.filter (fun r => r.2.isNone)).length + (l.filter (fun r => r.2.isSome)).length
      = l.length := by
  induction l with
  | nil => rfl
  | cons r rest ih =>
    rcases r with ⟨s, t⟩
    cases t with
    | none => simp [List.filter, ih.symm]; omega
    | some e => simp [List.filter, ih.symm]; omega

/-- The failed retention slots of a processed batch are exactly the
records whose local save succeeded and whose remote update failed; a
record whose save failed keeps its nil slot. -/
theorem processDataExtensions_ret_failures (env : Env) :
    ∀ (des : List DataExtension) (run : RunState),
    ((processDataExtensions env des run).1.filter (fun r => r.2.isSome)).length
      = des.countP (fun de =>
          (env.saveDataExtension de.id).isNone && (env.updateRetention de.id).isSome) := by
  intro des
  induction des with
  | nil => intro run; rfl
  | cons de rest ih =>
    intro run
    rw [processDataExtensions, List.countP_cons]
    cases hs : env.saveDataExtension de.id with
    | some e =>
      simp [processDataExtension, hs, List.filter, ih]
    | none =>
      cases hr : env.updateRetention de.id with
      | none => simp [processDataExtension, hs, hr, List.filter, ih]
      | some e => simp [processDataExtension, hs, hr, List.filter, ih]

/-- C3, amended: for a non-empty batch with a created job, the single
progress update writes processed = batch size, failed = the number of
records whose remote update ran and returned an error, and succeeded =
all other records, that is the successful remote updates plus the records
whose local save failed (whose nil retention slot is counted as success);
the job is then completed with the duration columns supplied, and the
batch returns success. -/
theorem syncDataExtensions_progress_counts (env : Env) (folderID : String)
    (run : RunState) (des : List DataExtension)
    (hf : env.getDataExtensions folderID = Except.ok des)
    (hne : 0 < des.length)
    (hjob : env.createSyncJob folderID = true) :
    (syncDataExtensions env folderID run).1 = none
    ∧ (syncDataExtensions env folderID run).2.jobProgress
        = run.jobProgress
          ++ [JobProgress.mk des.length (des.length - retFailCount env des)
                (retFailCount env des)]
    ∧ (syncDataExtensions env folderID run).2.jobCompletions
        = run.jobCompletions ++ [JobCompletion.mk "completed" true true] := by
  rw [syncDataExtensions, hf]
  have hjc : (decide (0 < des.length) && env.createSyncJob folderID) = true := by
    simp [hne, hjob]
  simp only [hjc, if_pos]
  set run1 : RunState :=
    { run with jobCreates := run.jobCreates ++ [(folderID, des.length)] } with hrun1
  have hshape := processDataExtensions_shape env des run1
  have hflen := length_filter_ret_split (processDataExtensions env des run1).1
  have hfail := processDataExtensions_ret_failures env des run1
  refine ⟨trivial, ?_, ?_⟩
  · show (processDataExtensions env des run1).2.jobProgress
        ++ [JobProgress.mk des.length
              ((processDataExtensions env des run1).1.filter (fun r => r.2.isNone)).length
              ((processDataExtensions env des run1).1.filter (fun r => r.2.isSome)).length]
      = run.jobProgress
        ++ [JobProgress.mk des.length (des.length - retFailCount env des)
              (retFailCount env des)]
    have hsucc : ((processDataExtensions env des run1).1.filter
        (fun r => r.2.isNone)).length = des.length - retFailCount env des := by
      rw [hfail] at hflen
      rw [hshape.2.2.1] at hflen
      unfold retFailCount
      omega
    rw [hshape.2.2.2.2.1, hfail, hsucc]
    rfl
  · show (processDataExtensions env des run1).2.jobCompletions
        ++ [JobCompletion.mk "completed" true true]
      = run.jobCompletions ++ [JobCompletion.mk "completed" true true]
    rw [hshape.2.2.2.2.2]

/-- Witness for the amended C3 theorem at the concrete environment whose
single record fails to save locally: the progress row counts it as a
succeeded item although no remote update ran. -/
theorem syncDataExtensions_progress_counts_witness :
    (syncDataExtensions envSaveRefused "F2" RunState.empty).1 = none
    ∧ (syncDataExtensions envSaveRefused "F2" RunState.empty).2.jobProgress
        = RunState.empty.jobProgress
          ++ [JobProgress.mk [dataExt1].length
                ([dataExt1].length - retFailCount envSaveRefused [dataExt1])
                (retFailCount envSaveRefused [dataExt1])]
    ∧ (syncDataExtensions envSaveRefused "F2" RunState.empty).2.jobCompletions
        = RunState.empty.jobCompletions ++ [JobCompletion.mk "completed" true true] :=
  syncDataExtensions_progress_counts envSaveRefused "F2" RunState.empty [dataExt1]
    rfl (by decide) rfl

/-- C10 counterexample: a row whose delete-at-end flag is set.  The remote
update succeeds with the constant payload, yet the locally stored
retention properties afterwards are not the constant: the delete-at-end
and reset-on-import flags are never written by the status update, so the
stored state keeps their old values. -/
theorem updateDataRetentionViaAPI_stored_not_constant :
    (updateDataRetentionViaAPI (fun _ => none) "DE9" rowDeleteAtEnd).2.1 = none
    ∧ (updateDataRetentionViaAPI (fun _ => none) "DE9" rowDeleteAtEnd).1
        = standardRetention
    ∧ (updateDataRetentionViaAPI (fun _ => none) "DE9" rowDeleteAtEnd).2.2.storedProps
        ≠ standardRetention := by
  decide

/-- C10, amended: the remote configuration update always sends the one
constant payload, for every record identifier and every existing local
row; and on success the stored period length, unit of measure and
row-based flag are set to the constant values 1, 5 and true with the
status marked succeeded and the retry counter reset, while the stored
delete-at-end and reset-on-import flags are left unchanged rather than
set to the constant. -/
theorem updateDataRetentionViaAPI_constant_payload
    (remote : DataRetentionProperties → Option String) (dataExtensionID : String)
    (row : DataRetentionRow) :
    (updateDataRetentionViaAPI remote dataExtensionID row).1 = standardRetention
    ∧ (remote standardRetention = none →
        (updateDataRetentionViaAPI remote dataExtensionID row).2.1 = none
        ∧ (updateDataRetentionViaAPI remote dataExtensionID row).2.2.periodLength = 1
        ∧ (updateDataRetentionViaAPI remote dataExtensionID row).2.2.periodUnitOfMeasure = 5
        ∧ (updateDataRetentionViaAPI remote dataExtensionID row).2.2.isRowBased = true
        ∧ (updateDataRetentionViaAPI remote dataExtensionID row).2.2.isDeleteAtEnd
            = row.isDeleteAtEnd
        ∧ (updateDataRetentionViaAPI remote dataExtensionID row).2.2.isResetOnImport
            = row.isResetOnImport
        ∧ (updateDataRetentionViaAPI remote dataExtensionID row).2.2.lastApiUpdateStatus
            = "succeeded"
        ∧ (updateDataRetentionViaAPI remote dataExtensionID row).2.2.apiUpdateRetryCount
            = some 0) := by
  constructor
  · rw [updateDataRetentionViaAPI]
    cases remote standardRetention with
    | some e => rfl
    | none => rfl
  · intro h
    rw [updateDataRetentionViaAPI]
    simp only [h]
    simp [updateDataRetentionAPIUpdateStatus, standardRetention]

/-- Witness for the constant-payload theorem at a succeeding remote call
and the concrete pending row. -/
theorem updateDataRetentionViaAPI_constant_payload_witness :
    (updateDataRetentionViaAPI (fun _ => none) "DE1" rowPending).1 = standardRetention
    ∧ ((updateDataRetentionViaAPI (fun _ => none) "DE1" rowPending).2.1 = none
        ∧ (updateDataRetentionViaAPI (fun _ => none) "DE1" rowPending).2.2.periodLength = 1
        ∧ (updateDataRetentionViaAPI (fun _ => none) "DE1" rowPending).2.2.periodUnitOfMeasure = 5
        ∧ (updateDataRetentionViaAPI (fun _ => none) "DE1" rowPending).2.2.isRowBased = true
        ∧ (updateDataRetentionViaAPI (fun _ => none) "DE1" rowPending).2.2.isDeleteAtEnd
            = rowPending.isDeleteAtEnd
        ∧ (updateDataRetentionViaAPI (fun _ => none) "DE1" rowPending).2.2.isResetOnImport
            = rowPending.isResetOnImport
        ∧ (updateDataRetentionViaAPI (fun _ => none) "DE1" rowPending).2.2.lastApiUpdateStatus
            = "succeeded"
        ∧ (updateDataRetentionViaAPI (fun _ => none) "DE1" rowPending).2.2.apiUpdateRetryCount
            = some 0) :=
  ⟨(updateDataRetentionViaAPI_constant_payload (fun _ => none) "DE1" rowPending).1,
   (updateDataRetentionViaAPI_constant_payload (fun _ => none) "DE1" rowPending).2 rfl⟩

